import Mathlib

/-!
Verification development for the axis-allocation deal-evaluation engine.

The Python sources under `deal_engine/` are shallowly embedded: Python
floats and ints become exact rationals (`ℚ`) or integers (`ℤ`),
`Optional[x]` becomes `Option`, dataclasses become structures, and enums
become inductive types.  Python truthiness on optional numerics
(`if fin.min_yield:`) is `x` is present and nonzero.  Presentation-only
string fields (explanations, remedies) that no property depends on are
omitted from the embedded records.
-/

namespace DealEngine

/-- Python truthiness of an `Optional[float]` / `Optional[int]`: present and nonzero. -/
def optTruthy (o : Option ℚ) : Bool :=
  match o with
  | none => false
  | some x => x ≠ 0

/-- Python `str.upper()` (character-wise, kernel-reducible model). -/
def pyUpper (s : String) : String := String.mk (s.data.map Char.toUpper)

/-- Python `str.lower()` (character-wise, kernel-reducible model). -/
def pyLower (s : String) : String := String.mk (s.data.map Char.toLower)

/-- Python `str.startswith(p)`. -/
def pyStartsWith (s p : String) : Bool := p.data.isPrefixOf s.data

/-- First whitespace-separated token of a string (`s.split()[0]`, or the
empty string when there is none). -/
def firstToken (s : String) : String :=
  String.mk ((s.data.dropWhile (fun c => c = ' ')).takeWhile (fun c => c ≠ ' '))

/- ========================= mandate.py ========================= -/

inductive AssetClass where
  | residential | commercial | mixed_use | industrial | retail | office
  | hospitality | student_housing | senior_living | btr | hmo
deriving DecidableEq, Repr

inductive RiskProfile where
  | core | core_plus | value_add | opportunistic
deriving DecidableEq, Repr

structure GeographicCriteria where
  regions : List String := []
  postcodes : List String := []
  exclude_regions : List String := []
  exclude_postcodes : List String := []
deriving Repr

structure FinancialCriteria where
  min_deal_size : Option ℚ := none
  max_deal_size : Option ℚ := none
  min_yield : Option ℚ := none
  target_yield : Option ℚ := none
  max_price_psf : Option ℚ := none
deriving Repr

structure PropertyCriteria where
  min_units : Option ℚ := none
  max_units : Option ℚ := none
  accept_refurbishment : Bool := true
  accept_development : Bool := false
  accept_turnkey : Bool := true
  freehold_only : Bool := false
  min_lease_years : Option ℚ := none
deriving Repr

structure ScoringWeights where
  location_region : ℚ := 0.15
  location_postcode : ℚ := 0.10
  price_range : ℚ := 0.20
  price_psf : ℚ := 0.05
  yield_minimum : ℚ := 0.15
  yield_target : ℚ := 0.10
  property_size : ℚ := 0.05
  property_condition : ℚ := 0.10
  property_tenure : ℚ := 0.05
  risk_profile : ℚ := 0.05
deriving Repr

structure DealCriteria where
  min_overall_score : ℚ := 40
  pursue_score_threshold : ℚ := 75
  consider_score_threshold : ℚ := 60
  high_conviction_threshold : ℚ := 0.80
  medium_conviction_threshold : ℚ := 0.60
  low_conviction_threshold : ℚ := 0.40
deriving Repr

structure Mandate where
  mandate_id : String := ""
  asset_classes : List AssetClass := []
  risk_profile : RiskProfile := .core_plus
  geographic : GeographicCriteria := {}
  financial : FinancialCriteria := {}
  property : PropertyCriteria := {}
  deal_criteria : DealCriteria := {}
  scoring_weights : ScoringWeights := {}
  priority : ℤ := 1
deriving Repr

/- ========================= listing.py ========================= -/

inductive Tenure where
  | freehold | leasehold | share_of_freehold | commonhold | unknown
deriving DecidableEq, Repr

inductive Condition where
  | turnkey | light_refurb | heavy_refurb | development | unknown
deriving DecidableEq, Repr

structure Address where
  region : String := ""
  postcode : String := ""
deriving Repr

/-- `Address.postcode_area`: outward code, the first whitespace token of the
upper-cased postcode (empty string when absent). -/
def Address.postcode_area (a : Address) : String :=
  firstToken (pyUpper a.postcode)

structure FinancialDetails where
  asking_price : ℚ := 0
  current_rent : Option ℚ := none
  gross_yield : Option ℚ := none
  price_per_sqft : Option ℚ := none
  lease_years_remaining : Option ℚ := none
deriving Repr

structure PropertyDetails where
  unit_count : ℚ := 1
  condition : Condition := .unknown
  has_tenants : Bool := false
deriving Repr

structure Listing where
  listing_id : String := ""
  asset_class : AssetClass := .residential
  tenure : Tenure := .unknown
  address : Address := {}
  financial : FinancialDetails := {}
  property_details : PropertyDetails := {}
deriving Repr

def Listing.postcode_area (l : Listing) : String := l.address.postcode_area

def Listing.region (l : Listing) : String := l.address.region

def Listing.asking_price (l : Listing) : ℚ := l.financial.asking_price

/-- `Listing.gross_yield`: stated yield if truthy, else derived from rent and
price when both are truthy, else `none`. -/
def Listing.gross_yield (l : Listing) : Option ℚ :=
  if optTruthy l.financial.gross_yield then l.financial.gross_yield
  else if optTruthy l.financial.current_rent ∧ l.financial.asking_price ≠ 0 then
    some ((l.financial.current_rent.getD 0 / l.financial.asking_price) * 100)
  else none

/-- `Mandate.accepts_asset_class`: empty list means no restriction. -/
def Mandate.accepts_asset_class (m : Mandate) (ac : AssetClass) : Bool :=
  if m.asset_classes.isEmpty then true else m.asset_classes.contains ac

/-- `Mandate.accepts_location`: exclusions first, then inclusion lists
(either region or postcode match suffices). -/
def Mandate.accepts_location (m : Mandate) (region : String) (postcode : String) : Bool :=
  let geo := m.geographic
  if geo.exclude_regions.contains region then false
  else if geo.exclude_postcodes.any
      (fun exc => pyStartsWith (pyUpper postcode) (pyUpper exc)) then false
  else if geo.regions.isEmpty ∧ geo.postcodes.isEmpty then true
  else
    let region_match := geo.regions.isEmpty ∨ geo.regions.contains region
    let postcode_match := geo.postcodes.isEmpty ∨
      geo.postcodes.any (fun pc => pyStartsWith (pyUpper postcode) (pyUpper pc))
    region_match ∨ postcode_match

/- ========================= scoring.py ========================= -/

inductive ScoreCategory where
  | location | price | yield_cat | property | risk
deriving DecidableEq, Repr

structure ScoreFactor where
  category : ScoreCategory
  name : String
  score : ℚ
  weight : ℚ
  weighted_score : ℚ
deriving Repr

structure ScoringResult where
  listing_id : String := ""
  mandate_id : String := ""
  total_score : ℚ
  match_grade : String
  factors : List ScoreFactor := []
  passes_hard_filters : Bool := true
  disqualification_count : ℕ := 0
deriving Repr

def DEFAULT_WEIGHTS : ScoringWeights := {}

def calculate_grade (score : ℚ) : String :=
  if score ≥ 90 then "A"
  else if score ≥ 75 then "B"
  else if score ≥ 60 then "C"
  else if score ≥ 40 then "D"
  else "F"

/-- Region sub-score of `_score_location`. -/
def region_match_score (l : Listing) (m : Mandate) : ℚ :=
  let geo := m.geographic
  if geo.regions.isEmpty then 1
  else if geo.regions.contains l.region then 1
  else if geo.exclude_regions.contains l.region then 0
  else 0.3

/-- Postcode sub-score of `_score_location`. -/
def postcode_match_score (l : Listing) (m : Mandate) : ℚ :=
  let geo := m.geographic
  let pa := l.postcode_area
  if geo.postcodes.isEmpty then 1
  else if geo.postcodes.any (fun pc => pyStartsWith pa (pyUpper pc)) then 1
  else if geo.exclude_postcodes.any (fun pc => pyStartsWith pa (pyUpper pc)) then 0
  else 0.5

def score_location (l : Listing) (m : Mandate) (w : ScoringWeights) : List ScoreFactor :=
  [ { category := .location, name := "region_match", score := region_match_score l m,
      weight := w.location_region,
      weighted_score := region_match_score l m * w.location_region },
    { category := .location, name := "postcode_match", score := postcode_match_score l m,
      weight := w.location_postcode,
      weighted_score := postcode_match_score l m * w.location_postcode } ]

/-- Price-range sub-score of `_score_price`: the sequential if/elif chain on
the configured deal-size bounds. -/
def price_range_score (l : Listing) (m : Mandate) : ℚ :=
  let fin := m.financial
  let price := l.asking_price
  let min_size := fin.min_deal_size.getD 0
  let max_size := fin.max_deal_size.getD 0
  if optTruthy fin.min_deal_size ∧ optTruthy fin.max_deal_size then
    if min_size ≤ price ∧ price ≤ max_size then
      1 - |0.5 - (price - min_size) / (max_size - min_size)| * 0.4
    else if price < min_size then
      max 0 (0.5 - (min_size - price) / min_size)
    else
      max 0 (0.5 - (price - max_size) / max_size)
  else if optTruthy fin.min_deal_size then
    if price ≥ min_size then 1
    else max 0 (0.7 - (min_size - price) / min_size)
  else if optTruthy fin.max_deal_size then
    if price ≤ max_size then 1
    else max 0 (0.5 - (price - max_size) / max_size)
  else 1

/-- Price-per-sqft sub-score of `_score_price`. -/
def price_psf_score (l : Listing) (m : Mandate) : ℚ :=
  let fin := m.financial
  if optTruthy fin.max_price_psf ∧ optTruthy l.financial.price_per_sqft then
    let psf := l.financial.price_per_sqft.getD 0
    let cap := fin.max_price_psf.getD 0
    if psf ≤ cap then 1
    else max 0 (0.8 - (psf - cap) / cap)
  else 1

def score_price (l : Listing) (m : Mandate) (w : ScoringWeights) : List ScoreFactor :=
  [ { category := .price, name := "price_range", score := price_range_score l m,
      weight := w.price_range,
      weighted_score := price_range_score l m * w.price_range },
    { category := .price, name := "price_psf", score := price_psf_score l m,
      weight := w.price_psf,
      weighted_score := price_psf_score l m * w.price_psf } ]

/-- Yield-vs-minimum sub-score of `_score_yield`. -/
def yield_minimum_score (l : Listing) (m : Mandate) : ℚ :=
  let fin := m.financial
  if optTruthy fin.min_yield then
    match l.gross_yield with
    | none => 0.5
    | some y =>
      let my := fin.min_yield.getD 0
      if y ≥ my then 1
      else max 0 (0.7 - (my - y) / my)
  else 1

/-- Yield-vs-target sub-score of `_score_yield`. -/
def yield_target_score (l : Listing) (m : Mandate) : ℚ :=
  let fin := m.financial
  if optTruthy fin.target_yield then
    match l.gross_yield with
    | none => 0.5
    | some y =>
      let ty := fin.target_yield.getD 0
      if y ≥ ty then min 1 (0.9 + (y - ty) / ty * 0.2)
      else max 0.3 (0.9 - (ty - y) / ty)
  else 1

def score_yield (l : Listing) (m : Mandate) (w : ScoringWeights) : List ScoreFactor :=
  [ { category := .yield_cat, name := "yield_minimum", score := yield_minimum_score l m,
      weight := w.yield_minimum,
      weighted_score := yield_minimum_score l m * w.yield_minimum },
    { category := .yield_cat, name := "yield_target", score := yield_target_score l m,
      weight := w.yield_target,
      weighted_score := yield_target_score l m * w.yield_target } ]

/-- Unit-count sub-score of `_score_property`. -/
def property_size_score (l : Listing) (m : Mandate) : ℚ :=
  let pm := m.property
  if optTruthy pm.min_units ∨ optTruthy pm.max_units then
    let units := l.property_details.unit_count
    if optTruthy pm.min_units ∧ units < pm.min_units.getD 0 then 0.5
    else if optTruthy pm.max_units ∧ units > pm.max_units.getD 0 then 0.5
    else 1
  else 1

/-- Condition sub-score of `_score_property`. -/
def property_condition_score (l : Listing) (m : Mandate) : ℚ :=
  let pm := m.property
  match l.property_details.condition with
  | .turnkey => if pm.accept_turnkey then 1 else 0.3
  | .light_refurb => if pm.accept_refurbishment then 1 else 0.3
  | .heavy_refurb => if pm.accept_refurbishment then 1 else 0.3
  | .development => if pm.accept_development then 1 else 0.2
  | .unknown => 0.7

/-- Tenure sub-score of `_score_property`. -/
def property_tenure_score (l : Listing) (m : Mandate) : ℚ :=
  let pm := m.property
  if pm.freehold_only then
    if l.tenure = .freehold then 1
    else if l.tenure = .share_of_freehold then 0.8
    else 0.2
  else if optTruthy pm.min_lease_years ∧ l.tenure = .leasehold then
    match l.financial.lease_years_remaining with
    | none => 0.6
    | some r => if r ≥ pm.min_lease_years.getD 0 then 1 else 0.4
  else 1

def score_property (l : Listing) (m : Mandate) (w : ScoringWeights) : List ScoreFactor :=
  [ { category := .property, name := "property_size", score := property_size_score l m,
      weight := w.property_size,
      weighted_score := property_size_score l m * w.property_size },
    { category := .property, name := "property_condition", score := property_condition_score l m,
      weight := w.property_condition,
      weighted_score := property_condition_score l m * w.property_condition },
    { category := .property, name := "property_tenure", score := property_tenure_score l m,
      weight := w.property_tenure,
      weighted_score := property_tenure_score l m * w.property_tenure } ]

def conditionRiskMap (c : Condition) : RiskProfile :=
  match c with
  | .turnkey => .core
  | .light_refurb => .core_plus
  | .heavy_refurb => .value_add
  | .development => .opportunistic
  | .unknown => .core_plus

def riskLevelIndex (r : RiskProfile) : ℤ :=
  match r with
  | .core => 0
  | .core_plus => 1
  | .value_add => 2
  | .opportunistic => 3

/-- Risk-alignment sub-score of `_score_risk`. -/
def risk_profile_score (l : Listing) (m : Mandate) : ℚ :=
  let implied := conditionRiskMap l.property_details.condition
  let level_diff := riskLevelIndex implied - riskLevelIndex m.risk_profile
  if level_diff = 0 then 1
  else if level_diff = 1 then 0.7
  else if level_diff = -1 then 0.8
  else if level_diff > 1 then 0.3
  else 0.6

def score_risk (l : Listing) (m : Mandate) (w : ScoringWeights) : List ScoreFactor :=
  [ { category := .risk, name := "risk_profile", score := risk_profile_score l m,
      weight := w.risk_profile,
      weighted_score := risk_profile_score l m * w.risk_profile } ]

/-- Weight names understood by the scoring module (dict keys). -/
def weightOfName (w : ScoringWeights) (name : String) : ℚ :=
  if name = "location_region" then w.location_region
  else if name = "location_postcode" then w.location_postcode
  else if name = "price_range" then w.price_range
  else if name = "price_psf" then w.price_psf
  else if name = "yield_minimum" then w.yield_minimum
  else if name = "yield_target" then w.yield_target
  else if name = "property_size" then w.property_size
  else if name = "property_condition" then w.property_condition
  else if name = "property_tenure" then w.property_tenure
  else w.risk_profile

/-- `{**DEFAULT_WEIGHTS, **weights}`: each of the ten keys takes the explicit
override when given, else the module default. -/
def mergeOverDefaults (overrides : List (String × ℚ)) : ScoringWeights where
  location_region := (overrides.lookup "location_region").getD DEFAULT_WEIGHTS.location_region
  location_postcode := (overrides.lookup "location_postcode").getD DEFAULT_WEIGHTS.location_postcode
  price_range := (overrides.lookup "price_range").getD DEFAULT_WEIGHTS.price_range
  price_psf := (overrides.lookup "price_psf").getD DEFAULT_WEIGHTS.price_psf
  yield_minimum := (overrides.lookup "yield_minimum").getD DEFAULT_WEIGHTS.yield_minimum
  yield_target := (overrides.lookup "yield_target").getD DEFAULT_WEIGHTS.yield_target
  property_size := (overrides.lookup "property_size").getD DEFAULT_WEIGHTS.property_size
  property_condition := (overrides.lookup "property_condition").getD DEFAULT_WEIGHTS.property_condition
  property_tenure := (overrides.lookup "property_tenure").getD DEFAULT_WEIGHTS.property_tenure
  risk_profile := (overrides.lookup "risk_profile").getD DEFAULT_WEIGHTS.risk_profile

/-- Weight resolution of `score_listing` (`if weights: ... else ...`); an
absent argument and an empty dict are both falsy. -/
def resolveWeights (weights : List (String × ℚ)) (m : Mandate) : ScoringWeights :=
  if weights.isEmpty then m.scoring_weights
  else mergeOverDefaults weights

/-- `score_listing`: hard filters, the ten weighted factors, normalization,
and the 0.3 penalty multiplier on hard-filter failure. -/
def score_listing (l : Listing) (m : Mandate)
    (weights : List (String × ℚ) := []) : ScoringResult :=
  let active_weights := resolveWeights weights m
  let passes_hard_filters :=
    m.accepts_asset_class l.asset_class && m.accepts_location l.region l.postcode_area
  let disqualification_count :=
    (if m.accepts_asset_class l.asset_class then 0 else 1) +
    (if m.accepts_location l.region l.postcode_area then 0 else 1)
  let factors :=
    score_location l m active_weights ++ score_price l m active_weights ++
    score_yield l m active_weights ++ score_property l m active_weights ++
    score_risk l m active_weights
  let total_weighted := (factors.map ScoreFactor.weighted_score).sum
  let total_weight := (factors.map ScoreFactor.weight).sum
  let normalized_score := if total_weight > 0 then (total_weighted / total_weight) * 100 else 0
  let final_score := if passes_hard_filters then normalized_score else normalized_score * 0.3
  { listing_id := l.listing_id
    mandate_id := m.mandate_id
    total_score := final_score
    match_grade := calculate_grade final_score
    factors := factors
    passes_hard_filters := passes_hard_filters
    disqualification_count := disqualification_count }

/- ========================= conviction.py ========================= -/

inductive ConvictionLevel where
  | high | medium | low | none_
deriving DecidableEq, Repr

structure ConvictionFactor where
  name : String
  met : Bool
  weight : ℚ
deriving Repr

structure ConvictionAssessment where
  listing_id : String := ""
  mandate_id : String := ""
  level : ConvictionLevel
  confidence_score : ℚ
  positive_factors : List ConvictionFactor := []
  negative_factors : List ConvictionFactor := []
  neutral_factors : List ConvictionFactor := []
deriving Repr

/-- `_assess_price_conviction`. -/
def assess_price_conviction (l : Listing) (m : Mandate) : List ConvictionFactor :=
  let fin := m.financial
  let price := l.asking_price
  let part1 : List ConvictionFactor :=
    if optTruthy fin.min_deal_size ∧ optTruthy fin.max_deal_size then
      let range_size := fin.max_deal_size.getD 0 - fin.min_deal_size.getD 0
      let position :=
        if range_size > 0 then (price - fin.min_deal_size.getD 0) / range_size else 0.5
      if 0.2 ≤ position ∧ position ≤ 0.8 then
        [{ name := "price_positioning", met := true, weight := 0.15 }]
      else if position < 0.2 then
        [{ name := "price_positioning", met := true, weight := 0.10 }]
      else
        [{ name := "price_positioning", met := false, weight := 0.10 }]
    else []
  let part2 : List ConvictionFactor :=
    if optTruthy l.financial.price_per_sqft ∧ optTruthy fin.max_price_psf then
      let psf := l.financial.price_per_sqft.getD 0
      let cap := fin.max_price_psf.getD 0
      if psf ≤ cap * 0.85 then
        [{ name := "price_psf_value", met := true, weight := 0.10 }]
      else if psf ≤ cap then
        [{ name := "price_psf_value", met := true, weight := 0.05 }]
      else []
    else []
  part1 ++ part2

/-- `_assess_yield_conviction`. -/
def assess_yield_conviction (l : Listing) (m : Mandate) : List ConvictionFactor :=
  let fin := m.financial
  match l.gross_yield with
  | none => [{ name := "yield_data", met := false, weight := 0.15 }]
  | some y =>
    let part1 : List ConvictionFactor :=
      if optTruthy fin.min_yield then
        let yield_buffer := y - fin.min_yield.getD 0
        if yield_buffer ≥ 2 then
          [{ name := "yield_buffer", met := true, weight := 0.20 }]
        else if yield_buffer ≥ 1 then
          [{ name := "yield_buffer", met := true, weight := 0.15 }]
        else if yield_buffer ≥ 0 then
          [{ name := "yield_buffer", met := true, weight := 0.05 }]
        else
          [{ name := "yield_buffer", met := false, weight := 0.20 }]
      else []
    let part2 : List ConvictionFactor :=
      if optTruthy fin.target_yield ∧ y ≥ fin.target_yield.getD 0 then
        [{ name := "yield_target", met := true, weight := 0.15 }]
      else []
    part1 ++ part2

/-- `_assess_location_conviction`. -/
def assess_location_conviction (l : Listing) (m : Mandate) : List ConvictionFactor :=
  let geo := m.geographic
  let region := l.region
  let postcode := l.postcode_area
  let part1 : List ConvictionFactor :=
    if geo.regions.contains region then
      [{ name := "region_match", met := true, weight := 0.15 }]
    else if geo.regions.isEmpty then
      [{ name := "region_match", met := true, weight := 0.05 }]
    else []
  let part2 : List ConvictionFactor :=
    if ¬geo.postcodes.isEmpty then
      let exact_match := geo.postcodes.any (fun pc => pyUpper postcode = pyUpper pc)
      let prefix_match := geo.postcodes.any
        (fun pc => pyStartsWith (pyUpper postcode) (pyUpper pc))
      if exact_match then
        [{ name := "postcode_match", met := true, weight := 0.15 }]
      else if prefix_match then
        [{ name := "postcode_match", met := true, weight := 0.10 }]
      else []
    else []
  part1 ++ part2

/-- `_assess_property_conviction`. -/
def assess_property_conviction (l : Listing) (m : Mandate) : List ConvictionFactor :=
  let pm := m.property
  let pl := l.property_details
  let units := pl.unit_count
  let part1 : List ConvictionFactor :=
    if optTruthy pm.min_units ∧ optTruthy pm.max_units then
      if pm.min_units.getD 0 ≤ units ∧ units ≤ pm.max_units.getD 0 then
        let range_size := pm.max_units.getD 0 - pm.min_units.getD 0
        if range_size > 0 then
          let position := (units - pm.min_units.getD 0) / range_size
          if 0.2 ≤ position ∧ position ≤ 0.8 then
            [{ name := "unit_count", met := true, weight := 0.10 }]
          else
            [{ name := "unit_count", met := true, weight := 0.05 }]
        else []
      else []
    else []
  let part2 : List ConvictionFactor :=
    if pl.condition = .turnkey ∧ pm.accept_turnkey then
      [{ name := "condition_fit", met := true, weight := 0.15 }]
    else if pl.condition = .light_refurb ∧ pm.accept_refurbishment then
      [{ name := "condition_fit", met := true, weight := 0.12 }]
    else if pl.condition = .heavy_refurb ∧ pm.accept_refurbishment then
      [{ name := "condition_fit", met := true, weight := 0.08 }]
    else if pl.condition = .development ∧ pm.accept_development then
      [{ name := "condition_fit", met := true, weight := 0.05 }]
    else if pl.condition = .unknown then
      [{ name := "condition_fit", met := false, weight := 0.10 }]
    else []
  let part3 : List ConvictionFactor :=
    if pl.has_tenants then
      [{ name := "income_status", met := true, weight := 0.10 }]
    else []
  part1 ++ part2 ++ part3

/-- `_assess_risk_conviction`. -/
def assess_risk_conviction (l : Listing) (_m : Mandate) : List ConvictionFactor :=
  match l.tenure with
  | .freehold => [{ name := "tenure_security", met := true, weight := 0.10 }]
  | .share_of_freehold => [{ name := "tenure_security", met := true, weight := 0.08 }]
  | .leasehold =>
    let remaining := l.financial.lease_years_remaining
    if optTruthy remaining ∧ remaining.getD 0 ≥ 125 then
      [{ name := "tenure_security", met := true, weight := 0.08 }]
    else if optTruthy remaining ∧ remaining.getD 0 ≥ 80 then
      [{ name := "tenure_security", met := true, weight := 0.05 }]
    else if optTruthy remaining then
      [{ name := "tenure_security", met := false, weight := 0.10 }]
    else []
  | _ => []

/-- All conviction factors gathered by `assess_conviction`, in order. -/
def convictionFactors (l : Listing) (m : Mandate) : List ConvictionFactor :=
  assess_price_conviction l m ++ assess_yield_conviction l m ++
  assess_location_conviction l m ++ assess_property_conviction l m ++
  assess_risk_conviction l m

/-- Total weight of all gathered factors. -/
def convictionTotalWeight (l : Listing) (m : Mandate) : ℚ :=
  ((convictionFactors l m).map ConvictionFactor.weight).sum

/-- Total weight of the met factors. -/
def convictionMetWeight (l : Listing) (m : Mandate) : ℚ :=
  (((convictionFactors l m).filter (fun f => f.met)).map ConvictionFactor.weight).sum

/-- The level assignment of `assess_conviction`: hard-filter failure forces
NONE, otherwise the threshold ladder. -/
def convictionLevelOf (passes : Bool) (dc : DealCriteria) (final : ℚ) : ConvictionLevel :=
  if ¬passes then .none_
  else if final ≥ dc.high_conviction_threshold then .high
  else if final ≥ dc.medium_conviction_threshold then .medium
  else if final ≥ dc.low_conviction_threshold then .low
  else .none_

/-- `assess_conviction`. -/
def assess_conviction (l : Listing) (m : Mandate) (sr : ScoringResult) :
    ConvictionAssessment :=
  let all_factors := convictionFactors l m
  let positive := all_factors.filter (fun f => f.met ∧ f.weight ≥ 0.10)
  let negative := all_factors.filter (fun f => ¬f.met)
  let neutral := all_factors.filter (fun f => f.met ∧ f.weight < 0.10)
  let raw_total := (all_factors.map ConvictionFactor.weight).sum
  let total_weight := if raw_total = 0 then 1 else raw_total
  let met_weight := ((all_factors.filter (fun f => f.met)).map ConvictionFactor.weight).sum
  let confidence_score := met_weight / total_weight
  let final_confidence :=
    if sr.passes_hard_filters then (sr.total_score / 100) * 0.7 + confidence_score * 0.3
    else confidence_score * 0.3
  { listing_id := l.listing_id
    mandate_id := m.mandate_id
    level := convictionLevelOf sr.passes_hard_filters m.deal_criteria final_confidence
    confidence_score := final_confidence
    positive_factors := positive
    negative_factors := negative
    neutral_factors := neutral }

/- ========================= rejection.py ========================= -/

inductive RejectionCategory where
  | price | location | yield_cat | asset_class | property | tenure | risk | data_quality
deriving DecidableEq, Repr

inductive RejectionSeverity where
  | hard | soft
deriving DecidableEq, Repr

structure RejectionReason where
  category : RejectionCategory
  severity : RejectionSeverity
  code : String
deriving DecidableEq, Repr

structure RejectionResult where
  listing_id : String := ""
  mandate_id : String := ""
  rejected : Bool
  reasons : List RejectionReason := []
deriving Repr

def check_price_too_high (l : Listing) (m : Mandate) : Option RejectionReason :=
  if optTruthy m.financial.max_deal_size ∧ l.asking_price > m.financial.max_deal_size.getD 0 then
    let max_size := m.financial.max_deal_size.getD 0
    let excess_pct := ((l.asking_price - max_size) / max_size) * 100
    some { category := .price
           severity := if excess_pct > 20 then .hard else .soft
           code := "PRICE_EXCEEDS_MAX" }
  else none

def check_price_too_low (l : Listing) (m : Mandate) : Option RejectionReason :=
  if optTruthy m.financial.min_deal_size ∧ l.asking_price < m.financial.min_deal_size.getD 0 then
    let min_size := m.financial.min_deal_size.getD 0
    let shortfall_pct := ((min_size - l.asking_price) / min_size) * 100
    some { category := .price
           severity := if shortfall_pct > 30 then .hard else .soft
           code := "PRICE_BELOW_MIN" }
  else none

def check_location_excluded (l : Listing) (m : Mandate) : Option RejectionReason :=
  let geo := m.geographic
  if geo.exclude_regions.contains l.region then
    some { category := .location, severity := .hard, code := "REGION_EXCLUDED" }
  else if geo.exclude_postcodes.any
      (fun exc => pyStartsWith (pyUpper l.postcode_area) (pyUpper exc)) then
    some { category := .location, severity := .hard, code := "POSTCODE_EXCLUDED" }
  else none

def check_location_outside_target (l : Listing) (m : Mandate) : Option RejectionReason :=
  let geo := m.geographic
  if geo.regions.isEmpty ∧ geo.postcodes.isEmpty then none
  else
    let region_match := geo.regions.isEmpty ∨ geo.regions.contains l.region
    let postcode_match := geo.postcodes.isEmpty ∨
      geo.postcodes.any (fun pc => pyStartsWith (pyUpper l.postcode_area) (pyUpper pc))
    if ¬region_match ∧ ¬postcode_match then
      some { category := .location, severity := .soft, code := "LOCATION_NOT_TARGET" }
    else none

def check_yield_insufficient (l : Listing) (m : Mandate) : Option RejectionReason :=
  match l.gross_yield with
  | none => none
  | some y =>
    if optTruthy m.financial.min_yield ∧ y < m.financial.min_yield.getD 0 then
      let shortfall := m.financial.min_yield.getD 0 - y
      some { category := .yield_cat
             severity := if shortfall > 2 then .hard else .soft
             code := "YIELD_BELOW_MIN" }
    else none

def check_asset_class_mismatch (l : Listing) (m : Mandate) : Option RejectionReason :=
  if ¬m.asset_classes.isEmpty ∧ ¬m.asset_classes.contains l.asset_class then
    some { category := .asset_class, severity := .hard, code := "ASSET_CLASS_MISMATCH" }
  else none

def check_tenure_unacceptable (l : Listing) (m : Mandate) : Option RejectionReason :=
  let prop := m.property
  if prop.freehold_only ∧ l.tenure ≠ .freehold ∧ l.tenure ≠ .share_of_freehold then
    some { category := .tenure, severity := .hard, code := "FREEHOLD_REQUIRED" }
  else if optTruthy prop.min_lease_years ∧ l.tenure = .leasehold then
    match l.financial.lease_years_remaining with
    | some r =>
      if r < prop.min_lease_years.getD 0 then
        some { category := .tenure
               severity := if r < 80 then .hard else .soft
               code := "LEASE_TOO_SHORT" }
      else none
    | none => none
  else none

def check_condition_unacceptable (l : Listing) (m : Mandate) : Option RejectionReason :=
  let prop := m.property
  let condition := l.property_details.condition
  if condition = .development ∧ ¬prop.accept_development then
    some { category := .property, severity := .hard, code := "DEVELOPMENT_NOT_ACCEPTED" }
  else if (condition = .light_refurb ∨ condition = .heavy_refurb) ∧
      ¬prop.accept_refurbishment then
    some { category := .property, severity := .soft, code := "REFURB_NOT_ACCEPTED" }
  else none

def check_unit_count (l : Listing) (m : Mandate) : Option RejectionReason :=
  let prop := m.property
  let units := l.property_details.unit_count
  if optTruthy prop.min_units ∧ units < prop.min_units.getD 0 then
    some { category := .property, severity := .soft, code := "UNITS_BELOW_MIN" }
  else if optTruthy prop.max_units ∧ units > prop.max_units.getD 0 then
    some { category := .property, severity := .soft, code := "UNITS_ABOVE_MAX" }
  else none

def check_data_quality (l : Listing) (_m : Mandate) : Option RejectionReason :=
  let missing :=
    (l.address.postcode = "") ∨ (l.address.region = "") ∨
    (l.financial.asking_price ≤ 0) ∨ (l.property_details.condition = .unknown)
  if missing then
    some { category := .data_quality, severity := .soft, code := "MISSING_DATA" }
  else none

def REJECTION_RULES : List (Listing → Mandate → Option RejectionReason) :=
  [ check_asset_class_mismatch,
    check_location_excluded,
    check_price_too_high,
    check_price_too_low,
    check_yield_insufficient,
    check_tenure_unacceptable,
    check_condition_unacceptable,
    check_location_outside_target,
    check_unit_count,
    check_data_quality ]

/-- The rule loop of `evaluate_rejection`: collect the produced reasons,
breaking at the first HARD reason when `stop_on_hard` is set. -/
def collectReasons (rules : List (Listing → Mandate → Option RejectionReason))
    (l : Listing) (m : Mandate) (stop_on_hard : Bool) : List RejectionReason :=
  match rules with
  | [] => []
  | rule :: rest =>
    match rule l m with
    | none => collectReasons rest l m stop_on_hard
    | some reason =>
      if stop_on_hard ∧ reason.severity = .hard then [reason]
      else reason :: collectReasons rest l m stop_on_hard

/-- `evaluate_rejection` with the default rule list. -/
def evaluate_rejection (l : Listing) (m : Mandate) (stop_on_hard : Bool := false) :
    RejectionResult :=
  let reasons := collectReasons REJECTION_RULES l m stop_on_hard
  { listing_id := l.listing_id
    mandate_id := m.mandate_id
    rejected := reasons.any (fun r => r.severity = .hard)
    reasons := reasons }

/- ========================= recommendation.py ========================= -/

inductive RecommendationAction where
  | pursue | consider | watch | pass
deriving DecidableEq, Repr

/-- `_determine_action`. -/
def determine_action (scoring : ScoringResult) (conviction : ConvictionAssessment)
    (rejection : RejectionResult) (m : Mandate) : RecommendationAction :=
  let deal := m.deal_criteria
  if rejection.rejected then .pass
  else if conviction.level = .high ∧ scoring.total_score ≥ deal.pursue_score_threshold then
    .pursue
  else if conviction.level = .medium then .consider
  else if conviction.level = .high ∧ scoring.total_score ≥ deal.consider_score_threshold then
    .consider
  else if conviction.level = .low ∧ scoring.passes_hard_filters ∧
      scoring.total_score ≥ deal.min_overall_score then
    .watch
  else .pass

/- ========================= review.py ========================= -/

inductive ReviewState where
  | new | reviewing | accepted | declined
deriving DecidableEq, Repr

inductive ReviewAction where
  | start_review | accept | decline | reset
deriving DecidableEq, Repr

/-- `VALID_TRANSITIONS` table. -/
def validTransitions (s : ReviewState) (a : ReviewAction) : Option ReviewState :=
  match s, a with
  | .new, .start_review => some .reviewing
  | .reviewing, .accept => some .accepted
  | .reviewing, .decline => some .declined
  | .reviewing, .reset => some .new
  | .accepted, .reset => some .new
  | .declined, .reset => some .new
  | _, _ => none

/-- The data carried by `InvalidTransitionError`. -/
structure InvalidTransitionErr where
  current_state : ReviewState
  action : ReviewAction
deriving DecidableEq, Repr

structure StateTransition where
  from_state : ReviewState
  to_state : ReviewState
  action : ReviewAction
  actor : String
  notes : String := ""
deriving DecidableEq, Repr

structure DealReview where
  review_id : String := ""
  listing_id : String := ""
  mandate_id : String := ""
  state : ReviewState := .new
  decision_notes : String := ""
  decline_reasons : List String := []
  history : List StateTransition := []
deriving Repr

def DealReview.can_transition (r : DealReview) (a : ReviewAction) : Bool :=
  (validTransitions r.state a).isSome

/-- `DealReview.transition` run as a pure step: returns the review after the
call together with the raised `InvalidTransitionError`, if any.  On success
the audit record is appended and the state updated; on error the review is
returned unchanged. -/
def DealReview.transitionRun (r : DealReview) (a : ReviewAction)
    (actor : String) (notes : String := "") : DealReview × Option InvalidTransitionErr :=
  match validTransitions r.state a with
  | none => (r, some { current_state := r.state, action := a })
  | some new_state =>
    ({ r with
        state := new_state
        history := r.history ++
          [{ from_state := r.state, to_state := new_state, action := a,
             actor := actor, notes := notes }] },
     none)

/-- `DealReview.accept`: overwrites `decision_notes` before validating the
transition. -/
def DealReview.acceptRun (r : DealReview) (actor : String) (notes : String := "") :
    DealReview × Option InvalidTransitionErr :=
  ({ r with decision_notes := notes }).transitionRun .accept actor notes

/-- `DealReview.decline`: overwrites `decline_reasons` and `decision_notes`
before validating the transition. -/
def DealReview.declineRun (r : DealReview) (actor : String) (reasons : List String)
    (notes : String := "") : DealReview × Option InvalidTransitionErr :=
  ({ r with decline_reasons := reasons, decision_notes := notes }).transitionRun
    .decline actor notes

/- ========================= planning/models.py ========================= -/

inductive PrecedentType where
  | extension_rear | extension_side | extension_loft | extension_basement
  | conversion_residential | conversion_hmo | conversion_flats | change_of_use
  | new_build | demolition_rebuild | subdivision | permitted_development | other
deriving DecidableEq, Repr

inductive PlanningLabel where
  | exceptional | strong | medium | low
deriving DecidableEq, Repr

structure PlanningContext where
  property_type : String := ""
  tenure : String := ""
  current_sqft : Option ℚ := none
  plot_size_sqft : Option ℚ := none
  conservation_area : Bool := false
  listed_building : Bool := false
  listed_grade : String := ""
  article_4_direction : Bool := false
  green_belt : Bool := false
  flood_zone : ℤ := 1
  tree_preservation_orders : Bool := false
  proposed_type : PrecedentType := .other
deriving Repr

structure PlanningScore where
  score : ℤ
  label : PlanningLabel
  precedent_score : ℤ := 0
  feasibility_score : ℤ := 0
  uplift_score : ℤ := 0
deriving DecidableEq, Repr

/- ========================= planning/feasibility.py ========================= -/

inductive FeasibilityFactor where
  | listed_building | conservation_area | green_belt | flood_zone | article_4
  | tree_preservation | property_type | tenure_factor | plot_size | pd_rights
deriving DecidableEq, Repr

/-- The threaded mutable state of `assess_feasibility` (running score plus
the factor, blocker and recommendation accumulators; recommendation texts
are presentation-only and omitted). -/
structure FeasAcc where
  score : ℤ
  positive : List FeasibilityFactor := []
  negative : List FeasibilityFactor := []
  neutral : List FeasibilityFactor := []
  blockers : List String := []
deriving Repr

structure FeasibilityResult where
  score : ℤ
  positive_factors : List FeasibilityFactor := []
  negative_factors : List FeasibilityFactor := []
  neutral_factors : List FeasibilityFactor := []
  blockers : List String := []
deriving Repr

def assessListedBuilding (ctx : PlanningContext) (a : FeasAcc) : FeasAcc :=
  if ¬ctx.listed_building then
    { a with positive := a.positive ++ [.listed_building], score := a.score + 5 }
  else
    let grade := if ctx.listed_grade ≠ "" then pyUpper ctx.listed_grade else "II"
    if grade = "I" then
      { a with
          blockers := a.blockers ++
            ["Grade I listed building - development extremely unlikely without exceptional circumstances"]
          negative := a.negative ++ [.listed_building]
          score := a.score - 40 }
    else if grade = "II*" then
      { a with negative := a.negative ++ [.listed_building], score := a.score - 25 }
    else
      { a with negative := a.negative ++ [.listed_building], score := a.score - 15 }

def assessConservationArea (ctx : PlanningContext) (a : FeasAcc) : FeasAcc :=
  if ¬ctx.conservation_area then
    { a with positive := a.positive ++ [.conservation_area], score := a.score + 3 }
  else
    { a with negative := a.negative ++ [.conservation_area], score := a.score - 10 }

def assessGreenBelt (ctx : PlanningContext) (a : FeasAcc) : FeasAcc :=
  if ¬ctx.green_belt then a
  else
    let a : FeasAcc := { a with negative := a.negative ++ [FeasibilityFactor.green_belt] }
    if ctx.proposed_type = .new_build ∨ ctx.proposed_type = .demolition_rebuild ∨
        ctx.proposed_type = .subdivision then
      { a with
          blockers := a.blockers ++
            ["Green Belt location: New buildings are inappropriate development and very unlikely to be approved"]
          score := a.score - 40 }
    else if ctx.proposed_type = .extension_rear ∨ ctx.proposed_type = .extension_side ∨
        ctx.proposed_type = .extension_loft then
      { a with score := a.score - 20 }
    else
      { a with score := a.score - 25 }

def assessFloodZone (ctx : PlanningContext) (a : FeasAcc) : FeasAcc :=
  if ctx.flood_zone = 1 then
    { a with positive := a.positive ++ [.flood_zone], score := a.score + 2 }
  else if ctx.flood_zone = 2 then
    { a with neutral := a.neutral ++ [.flood_zone], score := a.score - 5 }
  else
    { a with negative := a.negative ++ [.flood_zone], score := a.score - 15 }

def assessArticle4 (ctx : PlanningContext) (a : FeasAcc) : FeasAcc :=
  if ¬ctx.article_4_direction then a
  else { a with negative := a.negative ++ [.article_4], score := a.score - 10 }

def assessTpo (ctx : PlanningContext) (a : FeasAcc) : FeasAcc :=
  if ¬ctx.tree_preservation_orders then a
  else { a with negative := a.negative ++ [.tree_preservation], score := a.score - 5 }

/-- Python `sub in s` substring containment. -/
def strContains (s sub : String) : Bool :=
  decide (sub.toList <:+: s.toList)

def assessPropertyType (ctx : PlanningContext) (a : FeasAcc) : FeasAcc :=
  let prop_type := pyLower ctx.property_type
  let proposed := ctx.proposed_type
  if (strContains prop_type "house" ∨ strContains prop_type "bungalow") ∧
      (proposed = .extension_loft ∨ proposed = .extension_rear ∨
       proposed = .extension_side) then
    { a with positive := a.positive ++ [.property_type], score := a.score + 5 }
  else if prop_type = "flat" ∧
      (proposed = .extension_loft ∨ proposed = .extension_rear ∨
       proposed = .extension_side ∨ proposed = .extension_basement) then
    { a with negative := a.negative ++ [.property_type], score := a.score - 15 }
  else if strContains prop_type "terraced" ∧ proposed = .extension_side then
    { a with negative := a.negative ++ [.property_type], score := a.score - 20 }
  else
    { a with neutral := a.neutral ++ [.property_type] }

def assessTenure (ctx : PlanningContext) (a : FeasAcc) : FeasAcc :=
  let tenure := pyLower ctx.tenure
  if tenure = "freehold" then
    { a with positive := a.positive ++ [.tenure_factor], score := a.score + 3 }
  else if tenure = "leasehold" then
    { a with negative := a.negative ++ [.tenure_factor], score := a.score - 10 }
  else
    { a with neutral := a.neutral ++ [.tenure_factor] }

def assessPlotSize (ctx : PlanningContext) (a : FeasAcc) : FeasAcc :=
  if ¬optTruthy ctx.plot_size_sqft then
    { a with neutral := a.neutral ++ [.plot_size] }
  else
    let plot := ctx.plot_size_sqft.getD 0
    let afterCover :=
      if optTruthy ctx.current_sqft then
        let coverage := ctx.current_sqft.getD 0 / plot
        if coverage < 0.3 then
          some { a with positive := a.positive ++ [.plot_size], score := a.score + 10 }
        else if coverage > 0.6 then
          some { a with negative := a.negative ++ [.plot_size], score := a.score - 10 }
        else none
      else none
    match afterCover with
    | some a2 => a2
    | none =>
      if plot > 5000 then
        { a with positive := a.positive ++ [.plot_size], score := a.score + 5 }
      else if plot < 1000 then
        { a with neutral := a.neutral ++ [.plot_size], score := a.score - 3 }
      else a

def assessPdRights (ctx : PlanningContext) (a : FeasAcc) : FeasAcc :=
  let has_pd_rights :=
    ¬ctx.listed_building ∧ ¬ctx.article_4_direction ∧
    pyLower ctx.property_type ≠ "flat" ∧ pyLower ctx.property_type ≠ "maisonette"
  if has_pd_rights ∧
      (ctx.proposed_type = .extension_rear ∨ ctx.proposed_type = .extension_loft ∨
       ctx.proposed_type = .permitted_development) then
    { a with positive := a.positive ++ [.pd_rights], score := a.score + 8 }
  else a

/-- `assess_feasibility`: base score 70, the ten adjustments in order, the
clamp to [0,100], and the blocker cap at 20. -/
def assess_feasibility (ctx : PlanningContext) : FeasibilityResult :=
  let a : FeasAcc := { score := 70 }
  let a := assessListedBuilding ctx a
  let a := assessConservationArea ctx a
  let a := assessGreenBelt ctx a
  let a := assessFloodZone ctx a
  let a := assessArticle4 ctx a
  let a := assessTpo ctx a
  let a := assessPropertyType ctx a
  let a := assessTenure ctx a
  let a := assessPlotSize ctx a
  let a := assessPdRights ctx a
  let clamped := max 0 (min 100 a.score)
  let final := if a.blockers ≠ [] then min clamped 20 else clamped
  { score := final
    positive_factors := a.positive
    negative_factors := a.negative
    neutral_factors := a.neutral
    blockers := a.blockers }

/- ========================= planning/score.py ========================= -/

/-- Python `int()` applied to a float: truncation toward zero. -/
def pyInt (q : ℚ) : ℤ :=
  if 0 ≤ q then ⌊q⌋ else ⌈q⌉

def EXCEPTIONAL_THRESHOLD : ℤ := 80

def STRONG_THRESHOLD : ℤ := 60

def MEDIUM_THRESHOLD : ℤ := 40

def PRECEDENT_WEIGHT : ℚ := 0.35

def FEASIBILITY_WEIGHT : ℚ := 0.40

def UPLIFT_WEIGHT : ℚ := 0.25

/-- `calculate_planning_score`. -/
def calculate_planning_score (precedent_score feasibility_score : ℤ)
    (uplift_percent_mid : ℚ) : PlanningScore :=
  let uplift_score : ℤ := min 100 (pyInt (uplift_percent_mid / 30 * 100))
  let weighted_score : ℚ :=
    (precedent_score : ℚ) * PRECEDENT_WEIGHT +
    (feasibility_score : ℚ) * FEASIBILITY_WEIGHT +
    (uplift_score : ℚ) * UPLIFT_WEIGHT
  let overall_score := pyInt weighted_score
  let label :=
    if overall_score ≥ EXCEPTIONAL_THRESHOLD then PlanningLabel.exceptional
    else if overall_score ≥ STRONG_THRESHOLD then PlanningLabel.strong
    else if overall_score ≥ MEDIUM_THRESHOLD then PlanningLabel.medium
    else PlanningLabel.low
  { score := overall_score
    label := label
    precedent_score := precedent_score
    feasibility_score := feasibility_score
    uplift_score := uplift_score }

/- ===================== spec-side definitions ===================== -/

/-- The action decision table exactly as the specification words it
(§4.5, top-down, first match wins). -/
def specActionTable (rejected : Bool) (level : ConvictionLevel) (total_score : ℚ)
    (passes_hard_filters : Bool) (dc : DealCriteria) : RecommendationAction :=
  if rejected then .pass
  else if level = .high ∧ total_score ≥ dc.pursue_score_threshold then .pursue
  else if level = .medium ∨ (level = .high ∧ total_score ≥ dc.consider_score_threshold) then
    .consider
  else if level = .low ∧ passes_hard_filters ∧ total_score ≥ dc.min_overall_score then .watch
  else .pass

/-- Rank of a letter grade, for monotonicity statements. -/
def gradeRank (g : String) : ℕ :=
  if g = "A" then 4 else if g = "B" then 3 else if g = "C" then 2
  else if g = "D" then 1 else 0

/-- Rank of a conviction level, for monotonicity statements. -/
def levelRank (lv : ConvictionLevel) : ℕ :=
  match lv with
  | .none_ => 0
  | .low => 1
  | .medium => 2
  | .high => 3

/- ===================== claim theorems ===================== -/

/-- C1: for every (listing, mandate) evaluation, the recommendation action
equals the spec's top-down first-match-wins table over
(rejection.rejected, conviction.level, scoring.total_score,
scoring.passes_hard_filters, mandate.deal_criteria): any hard rejection
gives PASS; else HIGH conviction with score at or above the pursue
threshold gives PURSUE; else MEDIUM, or HIGH with score at or above the
consider threshold, gives CONSIDER; else LOW with passing hard filters and
score at or above the minimum overall score gives WATCH; otherwise PASS. -/
theorem action_decision_table (s : ScoringResult) (c : ConvictionAssessment)
    (r : RejectionResult) (m : Mandate) :
    determine_action s c r m =
      specActionTable r.rejected c.level s.total_score s.passes_hard_filters
        m.deal_criteria := by
  cases hrej : r.rejected <;> cases hlev : c.level <;>
    cases hp : s.passes_hard_filters <;>
      simp_all [determine_action, specActionTable]

/-- C10: calling accept or decline in a state whose row lacks that action
raises InvalidTransition carrying (state, action) and leaves state and
history unchanged, but the decision fields are already overwritten:
accept has replaced decision_notes, and decline has replaced both
decline_reasons and decision_notes. -/
theorem review_invalid_transition_effects (r : DealReview) (actor notes : String)
    (reasons : List String) :
    (r.can_transition .accept = false →
      (r.acceptRun actor notes).2 = some { current_state := r.state, action := .accept } ∧
      (r.acceptRun actor notes).1.state = r.state ∧
      (r.acceptRun actor notes).1.history = r.history ∧
      (r.acceptRun actor notes).1.decision_notes = notes ∧
      (r.acceptRun actor notes).1.decline_reasons = r.decline_reasons) ∧
    (r.can_transition .decline = false →
      (r.declineRun actor reasons notes).2 =
        some { current_state := r.state, action := .decline } ∧
      (r.declineRun actor reasons notes).1.state = r.state ∧
      (r.declineRun actor reasons notes).1.history = r.history ∧
      (r.declineRun actor reasons notes).1.decline_reasons = reasons ∧
      (r.declineRun actor reasons notes).1.decision_notes = notes) := by
  constructor
  · intro h
    have hnone : validTransitions r.state .accept = none := by
      unfold DealReview.can_transition at h
      cases hv : validTransitions r.state .accept with
      | none => rfl
      | some s => rw [hv] at h; simp at h
    simp [DealReview.acceptRun, DealReview.transitionRun, hnone]
  · intro h
    have hnone : validTransitions r.state .decline = none := by
      unfold DealReview.can_transition at h
      cases hv : validTransitions r.state .decline with
      | none => rfl
      | some s => rw [hv] at h; simp at h
    simp [DealReview.declineRun, DealReview.transitionRun, hnone]

/-- Witness for C10: a freshly created review is in NEW, where neither
accept nor decline is valid, and both calls behave as stated. -/
theorem review_invalid_transition_effects_witness :
    (({} : DealReview).can_transition .accept = false ∧
      (({} : DealReview).acceptRun "alice" "n1").1.state = ReviewState.new ∧
      (({} : DealReview).acceptRun "alice" "n1").1.decision_notes = "n1") ∧
    (({} : DealReview).can_transition .decline = false ∧
      (({} : DealReview).declineRun "alice" ["r1"] "n2").1.decline_reasons = ["r1"]) := by
  have h := review_invalid_transition_effects ({} : DealReview) "alice" "n1" ["r1"]
  have h1 := h.1 (by decide)
  have h2 :=
    (review_invalid_transition_effects ({} : DealReview) "alice" "n2" ["r1"]).2 (by decide)
  exact ⟨⟨by decide, h1.2.1, h1.2.2.2.1⟩, ⟨by decide, h2.2.2.2.1⟩⟩

/-- `pyInt` is the floor on nonnegative arguments. -/
theorem pyInt_eq_floor_of_nonneg (q : ℚ) (h : 0 ≤ q) : pyInt q = ⌊q⌋ := by
  unfold pyInt
  exact if_pos h

/-- C8 counterexample: at precedent 53, feasibility 53, uplift mid 0 the
weighted sum is 39.75; the code truncates it to 39, not the nearest
integer 40 the claim demands. -/
theorem planning_score_truncation_counterexample :
    ¬ ((calculate_planning_score 53 53 0).score =
      round ((53 : ℚ) * PRECEDENT_WEIGHT + (53 : ℚ) * FEASIBILITY_WEIGHT +
        (min 100 ((0 : ℚ) / 30 * 100)) * UPLIFT_WEIGHT)) := by
  have h1 : (calculate_planning_score 53 53 0).score = 39 := by
    norm_num [calculate_planning_score, pyInt, PRECEDENT_WEIGHT,
      FEASIBILITY_WEIGHT, UPLIFT_WEIGHT, min_def]
  have h2 : round ((53 : ℚ) * PRECEDENT_WEIGHT + (53 : ℚ) * FEASIBILITY_WEIGHT +
      (min 100 ((0 : ℚ) / 30 * 100)) * UPLIFT_WEIGHT) = 40 := by
    norm_num [PRECEDENT_WEIGHT, FEASIBILITY_WEIGHT, UPLIFT_WEIGHT, round_eq, min_def]
  rw [h1, h2]
  decide

/-- C8 (amended): for nonnegative inputs the overall planning score is the
weighted sum truncated with Python `int()` (the floor, not the nearest
integer), with the uplift component itself `int()`-truncated before the cap
at 100; the label thresholds are exceptional at 80, strong at 60, medium at
40, and low below. -/
theorem planning_score_truncated (p f : ℤ) (mid : ℚ)
    (hp : 0 ≤ p) (hf : 0 ≤ f) (hm : 0 ≤ mid) :
    (calculate_planning_score p f mid).score =
      ⌊(p : ℚ) * PRECEDENT_WEIGHT + (f : ℚ) * FEASIBILITY_WEIGHT +
        ((min 100 ⌊mid / 30 * 100⌋ : ℤ) : ℚ) * UPLIFT_WEIGHT⌋ ∧
    (calculate_planning_score p f mid).label =
      (if (calculate_planning_score p f mid).score ≥ 80 then PlanningLabel.exceptional
       else if (calculate_planning_score p f mid).score ≥ 60 then PlanningLabel.strong
       else if (calculate_planning_score p f mid).score ≥ 40 then PlanningLabel.medium
       else PlanningLabel.low) := by
  have hmid : (0 : ℚ) ≤ mid / 30 * 100 := by positivity
  have hup : pyInt (mid / 30 * 100) = ⌊mid / 30 * 100⌋ :=
    pyInt_eq_floor_of_nonneg _ hmid
  have hupnn : (0 : ℤ) ≤ min 100 ⌊mid / 30 * 100⌋ :=
    le_min (by norm_num) (Int.floor_nonneg.mpr hmid)
  have hw : (0 : ℚ) ≤ (p : ℚ) * PRECEDENT_WEIGHT + (f : ℚ) * FEASIBILITY_WEIGHT +
      ((min 100 ⌊mid / 30 * 100⌋ : ℤ) : ℚ) * UPLIFT_WEIGHT := by
    have h1 : (0 : ℚ) ≤ (p : ℚ) := by exact_mod_cast hp
    have h2 : (0 : ℚ) ≤ (f : ℚ) := by exact_mod_cast hf
    have h3 : (0 : ℚ) ≤ ((min 100 ⌊mid / 30 * 100⌋ : ℤ) : ℚ) := by exact_mod_cast hupnn
    unfold PRECEDENT_WEIGHT FEASIBILITY_WEIGHT UPLIFT_WEIGHT
    positivity
  constructor
  · show pyInt _ = _
    rw [hup]
    exact pyInt_eq_floor_of_nonneg _ hw
  · simp only [calculate_planning_score, EXCEPTIONAL_THRESHOLD, STRONG_THRESHOLD,
      MEDIUM_THRESHOLD]

/-- Witness for C8's amended theorem at (53, 53, 0). -/
theorem planning_score_truncated_witness :
    (calculate_planning_score 53 53 0).score =
      ⌊(53 : ℚ) * PRECEDENT_WEIGHT + (53 : ℚ) * FEASIBILITY_WEIGHT +
        ((min 100 ⌊(0 : ℚ) / 30 * 100⌋ : ℤ) : ℚ) * UPLIFT_WEIGHT⌋ :=
  (planning_score_truncated 53 53 0 (by decide) (by decide) (by norm_num)).1

/-- Listing priced exactly at the top edge of the configured deal-size range. -/
def edgeListing : Listing := { financial := { asking_price := 300 } }

/-- Mandate with both deal-size bounds configured, range [100, 300]. -/
def edgeMandate : Mandate :=
  { financial := { min_deal_size := some 100, max_deal_size := some 300 } }

/-- C3 counterexample: at the top edge of the range the price-range
sub-score is 0.8, not the 0.6 the claim derives from a maximum penalty
of 0.4. -/
theorem price_edge_penalty_counterexample :
    price_range_score edgeListing edgeMandate = 4/5 ∧ (4/5 : ℚ) ≠ 3/5 := by
  constructor
  · norm_num [price_range_score, edgeListing, edgeMandate, optTruthy,
      Listing.asking_price]
    rw [abs_of_pos (by norm_num : (0:ℚ) < 1/2)]
    norm_num
  · norm_num

/-- C3 (amended): within [min, max] the sub-score is 1 minus 0.4 times the
absolute distance of the normalized range position from the midpoint, so
the maximum penalty is 0.2 and the sub-score at either edge is 0.8 (the
sub-score stays within [0.8, 1]). -/
theorem price_range_midpoint_penalty (l : Listing) (m : Mandate) (mn mx : ℚ)
    (hmn : m.financial.min_deal_size = some mn)
    (hmx : m.financial.max_deal_size = some mx)
    (h0 : 0 < mn) (hlt : mn < mx)
    (h1 : mn ≤ l.asking_price) (h2 : l.asking_price ≤ mx) :
    price_range_score l m =
      1 - |1/2 - (l.asking_price - mn) / (mx - mn)| * (2/5) ∧
    (4/5 : ℚ) ≤ price_range_score l m ∧ price_range_score l m ≤ 1 ∧
    (l.asking_price = mn ∨ l.asking_price = mx → price_range_score l m = 4/5) := by
  have hmn0 : mn ≠ 0 := ne_of_gt h0
  have hd : (0 : ℚ) < mx - mn := by linarith
  have hmx0 : mx ≠ 0 := ne_of_gt (h0.trans hlt)
  have heq : price_range_score l m =
      1 - |1/2 - (l.asking_price - mn) / (mx - mn)| * (2/5) := by
    unfold price_range_score
    simp only [hmn, hmx, optTruthy, Option.getD_some, decide_eq_true_eq]
    split_ifs with hA hB <;>
      first
        | exact absurd ⟨h1, h2⟩ hB
        | exact absurd ⟨hmn0, hmx0⟩ hA
        | norm_num
  have hpos0 : (0 : ℚ) ≤ (l.asking_price - mn) / (mx - mn) :=
    div_nonneg (by linarith) (le_of_lt hd)
  have hpos1 : (l.asking_price - mn) / (mx - mn) ≤ 1 :=
    (div_le_one hd).mpr (by linarith)
  have habs : |1/2 - (l.asking_price - mn) / (mx - mn)| ≤ 1/2 := by
    rw [abs_le]
    constructor <;> linarith
  refine ⟨heq, ?_, ?_, ?_⟩
  · rw [heq]; nlinarith [abs_nonneg (1/2 - (l.asking_price - mn) / (mx - mn))]
  · rw [heq]; nlinarith [abs_nonneg (1/2 - (l.asking_price - mn) / (mx - mn))]
  · rintro (h | h) <;> rw [heq, h]
    · rw [sub_self, zero_div, sub_zero, abs_of_pos (by norm_num : (0:ℚ) < 1/2)]
      norm_num
    · rw [div_self (ne_of_gt hd), abs_of_neg (by norm_num : (1/2 : ℚ) - 1 < 0)]
      norm_num

/-- Witness for C3's amended theorem at the edge listing. -/
theorem price_range_midpoint_penalty_witness :
    (4/5 : ℚ) ≤ price_range_score edgeListing edgeMandate ∧
    price_range_score edgeListing edgeMandate = 4/5 := by
  have h := price_range_midpoint_penalty edgeListing edgeMandate 100 300 rfl rfl
    (by norm_num) (by norm_num)
    (by norm_num [edgeListing, Listing.asking_price])
    (by norm_num [edgeListing, Listing.asking_price])
  exact ⟨h.2.1, h.2.2.2 (Or.inr (by norm_num [edgeListing, Listing.asking_price]))⟩

/-- Mandate with a non-default region weight of 0.5. -/
def overrideMandate : Mandate := { scoring_weights := { location_region := 0.5 } }

/-- C4 counterexample: with an explicit weights argument covering only
price_range, the region factor is weighted 0.15 from the built-in
defaults, not the mandate's own 0.5. -/
theorem partial_weights_counterexample :
    ((score_listing {} overrideMandate [("price_range", 1/5)]).factors.map
      ScoreFactor.weight) =
      [3/20, 1/10, 1/5, 1/20, 3/20, 1/10, 1/20, 1/10, 1/20, 1/20] ∧
    overrideMandate.scoring_weights.location_region = 1/2 ∧ (3/20 : ℚ) ≠ 1/2 := by
  refine ⟨?_, by norm_num [overrideMandate], by norm_num⟩
  have e1 : (([("price_range", (1/5 : ℚ))]).lookup "location_region") = none := rfl
  have e2 : (([("price_range", (1/5 : ℚ))]).lookup "location_postcode") = none := rfl
  have e3 : (([("price_range", (1/5 : ℚ))]).lookup "price_range") = some (1/5 : ℚ) := rfl
  have e4 : (([("price_range", (1/5 : ℚ))]).lookup "price_psf") = none := rfl
  have e5 : (([("price_range", (1/5 : ℚ))]).lookup "yield_minimum") = none := rfl
  have e6 : (([("price_range", (1/5 : ℚ))]).lookup "yield_target") = none := rfl
  have e7 : (([("price_range", (1/5 : ℚ))]).lookup "property_size") = none := rfl
  have e8 : (([("price_range", (1/5 : ℚ))]).lookup "property_condition") = none := rfl
  have e9 : (([("price_range", (1/5 : ℚ))]).lookup "property_tenure") = none := rfl
  have e10 : (([("price_range", (1/5 : ℚ))]).lookup "risk_profile") = none := rfl
  norm_num [score_listing, resolveWeights, mergeOverDefaults, DEFAULT_WEIGHTS,
    score_location, score_price, score_yield, score_property, score_risk,
    e1, e2, e3, e4, e5, e6, e7, e8, e9, e10]

/-- C4 (amended): when no explicit weights are supplied the ten factors are
weighted by the mandate's own scoring weights; when any explicit weights
are supplied the ten factors are weighted by those overrides merged over
the built-in defaults — the mandate's own weights are ignored entirely. -/
theorem weight_precedence_defaults (l : Listing) (m : Mandate)
    (w : List (String × ℚ)) :
    (w = [] → (score_listing l m w).factors.map ScoreFactor.weight =
      [m.scoring_weights.location_region, m.scoring_weights.location_postcode,
       m.scoring_weights.price_range, m.scoring_weights.price_psf,
       m.scoring_weights.yield_minimum, m.scoring_weights.yield_target,
       m.scoring_weights.property_size, m.scoring_weights.property_condition,
       m.scoring_weights.property_tenure, m.scoring_weights.risk_profile]) ∧
    (w ≠ [] → (score_listing l m w).factors.map ScoreFactor.weight =
      [(mergeOverDefaults w).location_region, (mergeOverDefaults w).location_postcode,
       (mergeOverDefaults w).price_range, (mergeOverDefaults w).price_psf,
       (mergeOverDefaults w).yield_minimum, (mergeOverDefaults w).yield_target,
       (mergeOverDefaults w).property_size, (mergeOverDefaults w).property_condition,
       (mergeOverDefaults w).property_tenure, (mergeOverDefaults w).risk_profile]) := by
  constructor
  · intro h
    subst h
    simp [score_listing, resolveWeights, score_location, score_price, score_yield,
      score_property, score_risk]
  · intro h
    have hne : w.isEmpty = false := by
      cases w with
      | nil => exact absurd rfl h
      | cons a t => rfl
    simp [score_listing, resolveWeights, hne, score_location, score_price,
      score_yield, score_property, score_risk]

/-- Witness for C4's amended theorem: both branches at concrete inputs. -/
theorem weight_precedence_defaults_witness :
    (score_listing {} overrideMandate []).factors.map ScoreFactor.weight =
      [overrideMandate.scoring_weights.location_region,
       overrideMandate.scoring_weights.location_postcode,
       overrideMandate.scoring_weights.price_range,
       overrideMandate.scoring_weights.price_psf,
       overrideMandate.scoring_weights.yield_minimum,
       overrideMandate.scoring_weights.yield_target,
       overrideMandate.scoring_weights.property_size,
       overrideMandate.scoring_weights.property_condition,
       overrideMandate.scoring_weights.property_tenure,
       overrideMandate.scoring_weights.risk_profile] :=
  (weight_precedence_defaults {} overrideMandate []).1 rfl

/-- Listing in region North. -/
def northListing : Listing := { address := { region := "North" } }

/-- Mandate excluding North but with an empty include-region list. -/
def excludeOnlyMandate : Mandate := { geographic := { exclude_regions := ["North"] } }

/-- Mandate excluding North with a non-empty include-region list. -/
def includeSouthMandate : Mandate :=
  { geographic := { regions := ["South"], exclude_regions := ["North"] } }

/-- C5 counterexample: with an empty include-region list an excluded region
still scores 1.0, not the 0.0 the claim requires. -/
theorem excluded_region_counterexample :
    region_match_score northListing excludeOnlyMandate = 1 ∧
    excludeOnlyMandate.geographic.regions = [] ∧
    excludeOnlyMandate.geographic.exclude_regions.contains northListing.region = true ∧
    (1 : ℚ) ≠ 0 := by
  refine ⟨?_, rfl, by decide, by norm_num⟩
  norm_num [region_match_score, northListing, excludeOnlyMandate]

/-- C5 (amended): an excluded region scores 0.0 only when the mandate's
include-region list is non-empty (and does not contain the region); when
the include list is empty the region sub-score is 1.0 regardless of the
exclusion list. -/
theorem region_exclusion_scoring (l : Listing) (m : Mandate) :
    (m.geographic.regions ≠ [] →
      m.geographic.regions.contains l.region = false →
      m.geographic.exclude_regions.contains l.region = true →
      region_match_score l m = 0) ∧
    (m.geographic.regions = [] → region_match_score l m = 1) := by
  constructor
  · intro h1 h2 h3
    unfold region_match_score
    rw [if_neg (by simp [List.isEmpty_iff, h1]), if_neg (by rw [h2]; decide),
      if_pos h3]
  · intro h1
    unfold region_match_score
    rw [if_pos (by simp [List.isEmpty_iff, h1])]

/-- Witness for C5's amended theorem: both branches at concrete inputs. -/
theorem region_exclusion_scoring_witness :
    region_match_score northListing includeSouthMandate = 0 ∧
    region_match_score northListing excludeOnlyMandate = 1 := by
  constructor
  · exact (region_exclusion_scoring northListing includeSouthMandate).1
      (by decide) (by decide) (by decide)
  · exact (region_exclusion_scoring northListing excludeOnlyMandate).2 rfl

/-- Listing priced at 130 against a 100 cap (30% excess). -/
def overpricedListing : Listing := { financial := { asking_price := 130 } }

/-- Mandate with only a maximum deal size of 100. -/
def cappedMandate : Mandate := { financial := { max_deal_size := some 100 } }

/-- C7: for either value of stop_on_hard, evaluate_rejection sets rejected
exactly when the produced reasons list contains a HARD-severity reason;
and a price above a configured positive max_deal_size makes
check_price_too_high produce a PRICE_EXCEEDS_MAX reason whose severity is
HARD exactly when the excess over the maximum exceeds 20%. -/
theorem rejection_hard_iff_and_price_excess (l : Listing) (m : Mandate)
    (stop_on_hard : Bool) :
    ((evaluate_rejection l m stop_on_hard).rejected = true ↔
      ∃ r ∈ (evaluate_rejection l m stop_on_hard).reasons,
        r.severity = RejectionSeverity.hard) ∧
    (∀ mx : ℚ, m.financial.max_deal_size = some mx → 0 < mx →
      mx < l.asking_price →
      ∃ rr, check_price_too_high l m = some rr ∧ rr.code = "PRICE_EXCEEDS_MAX" ∧
        (rr.severity = RejectionSeverity.hard ↔
          ((l.asking_price - mx) / mx) * 100 > 20)) := by
  constructor
  · simp [evaluate_rejection, List.any_eq_true]
  · intro mx hmx h0 hlt
    unfold check_price_too_high
    rw [hmx]
    simp only [optTruthy, Option.getD_some, decide_eq_true_eq]
    rw [if_pos ⟨ne_of_gt h0, hlt⟩]
    refine ⟨_, rfl, rfl, ?_⟩
    split_ifs with hcond
    · simp [hcond]
    · simp [hcond]

/-- Witness for C7 at a listing 30% over the cap (HARD). -/
theorem rejection_hard_iff_and_price_excess_witness :
    ((evaluate_rejection overpricedListing cappedMandate false).rejected = true ↔
      ∃ r ∈ (evaluate_rejection overpricedListing cappedMandate false).reasons,
        r.severity = RejectionSeverity.hard) ∧
    (∃ rr, check_price_too_high overpricedListing cappedMandate = some rr ∧
      rr.code = "PRICE_EXCEEDS_MAX" ∧
      (rr.severity = RejectionSeverity.hard ↔
        ((overpricedListing.asking_price - 100) / 100) * 100 > 20)) := by
  have h := rejection_hard_iff_and_price_excess overpricedListing cappedMandate false
  exact ⟨h.1, h.2 100 rfl (by norm_num)
    (by norm_num [overpricedListing, Listing.asking_price])⟩

/-- The blocker text recorded for a Grade I listed building. -/
def gradeOneBlockerMsg : String :=
  "Grade I listed building - development extremely unlikely without exceptional circumstances"

/-- Each later feasibility assessor only appends to the blockers list. -/
theorem feas_blockers_conservation (ctx : PlanningContext) (a : FeasAcc) :
    ∃ t, (assessConservationArea ctx a).blockers = a.blockers ++ t := by
  unfold assessConservationArea
  split_ifs <;> exact ⟨[], (List.append_nil _).symm⟩

theorem feas_blockers_green_belt (ctx : PlanningContext) (a : FeasAcc) :
    ∃ t, (assessGreenBelt ctx a).blockers = a.blockers ++ t := by
  unfold assessGreenBelt
  dsimp only
  split_ifs <;>
    first
      | exact ⟨[], (List.append_nil _).symm⟩
      | exact ⟨_, rfl⟩

theorem feas_blockers_flood_zone (ctx : PlanningContext) (a : FeasAcc) :
    ∃ t, (assessFloodZone ctx a).blockers = a.blockers ++ t := by
  unfold assessFloodZone
  split_ifs <;> exact ⟨[], (List.append_nil _).symm⟩

theorem feas_blockers_article4 (ctx : PlanningContext) (a : FeasAcc) :
    ∃ t, (assessArticle4 ctx a).blockers = a.blockers ++ t := by
  unfold assessArticle4
  split_ifs <;> exact ⟨[], (List.append_nil _).symm⟩

theorem feas_blockers_tpo (ctx : PlanningContext) (a : FeasAcc) :
    ∃ t, (assessTpo ctx a).blockers = a.blockers ++ t := by
  unfold assessTpo
  split_ifs <;> exact ⟨[], (List.append_nil _).symm⟩

theorem feas_blockers_property_type (ctx : PlanningContext) (a : FeasAcc) :
    ∃ t, (assessPropertyType ctx a).blockers = a.blockers ++ t := by
  unfold assessPropertyType
  dsimp only
  split_ifs <;> exact ⟨[], (List.append_nil _).symm⟩

theorem feas_blockers_tenure (ctx : PlanningContext) (a : FeasAcc) :
    ∃ t, (assessTenure ctx a).blockers = a.blockers ++ t := by
  unfold assessTenure
  dsimp only
  split_ifs <;> exact ⟨[], (List.append_nil _).symm⟩

theorem feas_blockers_plot_size (ctx : PlanningContext) (a : FeasAcc) :
    ∃ t, (assessPlotSize ctx a).blockers = a.blockers ++ t := by
  unfold assessPlotSize
  dsimp only
  split_ifs <;> dsimp only <;> exact ⟨[], (List.append_nil _).symm⟩

theorem feas_blockers_pd_rights (ctx : PlanningContext) (a : FeasAcc) :
    ∃ t, (assessPdRights ctx a).blockers = a.blockers ++ t := by
  unfold assessPdRights
  dsimp only
  split_ifs <;> exact ⟨[], (List.append_nil _).symm⟩

/-- C9: for a Grade I listed building, assess_feasibility records a blocker
and the blocker cap keeps the final score at or below 30 (in fact 20). -/
theorem grade_one_listed_feasibility (ctx : PlanningContext)
    (hl : ctx.listed_building = true) (hg : ctx.listed_grade = "I") :
    (assess_feasibility ctx).score ≤ 30 ∧ (assess_feasibility ctx).blockers ≠ [] := by
  have hbase : ∀ a : FeasAcc, (assessListedBuilding ctx a).blockers =
      a.blockers ++ [gradeOneBlockerMsg] := by
    intro a
    unfold assessListedBuilding gradeOneBlockerMsg
    rw [hl, hg]
    rfl
  have step : ∀ (f : PlanningContext → FeasAcc → FeasAcc),
      (∀ a, ∃ t, (f ctx a).blockers = a.blockers ++ t) →
      ∀ a : FeasAcc, a.blockers ≠ [] → (f ctx a).blockers ≠ [] := by
    intro f hf a h
    obtain ⟨t, ht⟩ := hf a
    rw [ht]
    simp [h]
  have hb : (assessPdRights ctx (assessPlotSize ctx (assessTenure ctx
      (assessPropertyType ctx (assessTpo ctx (assessArticle4 ctx
      (assessFloodZone ctx (assessGreenBelt ctx (assessConservationArea ctx
      (assessListedBuilding ctx { score := 70 })))))))))).blockers ≠ [] := by
    apply step _ (feas_blockers_pd_rights ctx)
    apply step _ (feas_blockers_plot_size ctx)
    apply step _ (feas_blockers_tenure ctx)
    apply step _ (feas_blockers_property_type ctx)
    apply step _ (feas_blockers_tpo ctx)
    apply step _ (feas_blockers_article4 ctx)
    apply step _ (feas_blockers_flood_zone ctx)
    apply step _ (feas_blockers_green_belt ctx)
    apply step _ (feas_blockers_conservation ctx)
    rw [hbase]
    simp
  constructor
  · unfold assess_feasibility
    dsimp only
    rw [if_pos hb]
    exact le_trans (min_le_right _ _) (by norm_num)
  · unfold assess_feasibility
    dsimp only
    exact hb

/-- Grade I listed planning context for the witness. -/
def gradeOneContext : PlanningContext := { listed_building := true, listed_grade := "I" }

/-- Witness for C9 at a concrete Grade I context. -/
theorem grade_one_listed_feasibility_witness :
    (assess_feasibility gradeOneContext).score ≤ 30 ∧
    (assess_feasibility gradeOneContext).blockers ≠ [] :=
  grade_one_listed_feasibility gradeOneContext rfl rfl

/-- Every gathered conviction factor carries a nonnegative weight. -/
theorem conviction_weights_nonneg (l : Listing) (m : Mandate) :
    ∀ f ∈ convictionFactors l m, 0 ≤ f.weight := by
  intro f hf
  unfold convictionFactors at hf
  simp only [List.mem_append] at hf
  rcases hf with (((hf | hf) | hf) | hf) | hf
  · unfold assess_price_conviction at hf
    dsimp only at hf
    simp only [List.mem_append] at hf
    rcases hf with hf | hf <;> split_ifs at hf <;> simp_all <;> norm_num
  · unfold assess_yield_conviction at hf
    cases hy : l.gross_yield with
    | none => rw [hy] at hf; simp_all; norm_num
    | some y =>
      rw [hy] at hf
      dsimp only at hf
      simp only [List.mem_append] at hf
      rcases hf with hf | hf <;> split_ifs at hf <;> simp_all <;> norm_num
  · unfold assess_location_conviction at hf
    dsimp only at hf
    simp only [List.mem_append] at hf
    rcases hf with hf | hf <;> split_ifs at hf <;> simp_all <;> norm_num
  · unfold assess_property_conviction at hf
    dsimp only at hf
    simp only [List.mem_append] at hf
    rcases hf with (hf | hf) | hf <;> split_ifs at hf <;> simp_all <;> norm_num
  · unfold assess_risk_conviction at hf
    cases hten : l.tenure with
    | freehold => rw [hten] at hf; simp at hf; rw [hf]; norm_num
    | share_of_freehold => rw [hten] at hf; simp at hf; rw [hf]; norm_num
    | leasehold =>
      rw [hten] at hf
      dsimp only at hf
      split_ifs at hf <;> simp at hf <;> rw [hf] <;> norm_num
    | commonhold => rw [hten] at hf; simp at hf
    | unknown => rw [hten] at hf; simp at hf

/-- The met-weight sum is bounded by the total-weight sum when all weights
are nonnegative. -/
theorem filtered_weight_sum_le (xs : List ConvictionFactor)
    (p : ConvictionFactor → Bool) (h : ∀ f ∈ xs, 0 ≤ f.weight) :
    ((xs.filter p).map ConvictionFactor.weight).sum ≤
      (xs.map ConvictionFactor.weight).sum := by
  induction xs with
  | nil => simp
  | cons a t ih =>
    have ha := h a (List.mem_cons_self a t)
    have ht := ih (fun f hf => h f (List.mem_cons_of_mem a hf))
    by_cases hp : p a
    · simp only [List.filter_cons, hp, if_true, List.map_cons, List.sum_cons]
      linarith
    · simp only [List.filter_cons, hp, if_false, List.map_cons, List.sum_cons,
        Bool.false_eq_true]
      linarith

/-- The filtered weight sum is nonnegative when all weights are. -/
theorem filtered_weight_sum_nonneg (xs : List ConvictionFactor)
    (p : ConvictionFactor → Bool) (h : ∀ f ∈ xs, 0 ≤ f.weight) :
    0 ≤ ((xs.filter p).map ConvictionFactor.weight).sum := by
  apply List.sum_nonneg
  intro x hx
  simp only [List.mem_map] at hx
  obtain ⟨f, hf, rfl⟩ := hx
  exact h f (List.mem_of_mem_filter hf)

/-- C6: the final confidence is the 0.7/0.3 blend of the numeric score and
the met-weight ratio when the hard filters pass, and 0.3 times the ratio
otherwise; a hard-filter failure forces level NONE; and the level is a
monotone non-decreasing function of the final confidence. -/
theorem conviction_confidence_blend (l : Listing) (m : Mandate) (sr : ScoringResult) :
    (sr.passes_hard_filters = true →
      (assess_conviction l m sr).confidence_score =
        0.7 * (sr.total_score / 100) +
        0.3 * (convictionMetWeight l m / convictionTotalWeight l m)) ∧
    (sr.passes_hard_filters = false →
      (assess_conviction l m sr).confidence_score =
        0.3 * (convictionMetWeight l m / convictionTotalWeight l m) ∧
      (assess_conviction l m sr).level = ConvictionLevel.none_) ∧
    ((assess_conviction l m sr).level =
      convictionLevelOf sr.passes_hard_filters m.deal_criteria
        (assess_conviction l m sr).confidence_score) ∧
    (∀ (p : Bool) (dc : DealCriteria) (f₁ f₂ : ℚ), f₁ ≤ f₂ →
      levelRank (convictionLevelOf p dc f₁) ≤ levelRank (convictionLevelOf p dc f₂)) := by
  have hw := conviction_weights_nonneg l m
  have hle : convictionMetWeight l m ≤ convictionTotalWeight l m :=
    filtered_weight_sum_le _ _ hw
  have hnn : 0 ≤ convictionMetWeight l m :=
    filtered_weight_sum_nonneg _ _ hw
  have hcs : convictionMetWeight l m /
      (if convictionTotalWeight l m = 0 then 1 else convictionTotalWeight l m) =
      convictionMetWeight l m / convictionTotalWeight l m := by
    split_ifs with h
    · have hz : convictionMetWeight l m = 0 := le_antisymm (h ▸ hle) hnn
      rw [hz, h]
      simp
    · rfl
  have hconf : (assess_conviction l m sr).confidence_score =
      (if sr.passes_hard_filters then
        (sr.total_score / 100) * 0.7 +
          (convictionMetWeight l m /
            (if convictionTotalWeight l m = 0 then 1 else convictionTotalWeight l m)) * 0.3
      else
        (convictionMetWeight l m /
          (if convictionTotalWeight l m = 0 then 1 else convictionTotalWeight l m)) * 0.3) :=
    rfl
  have hlev : (assess_conviction l m sr).level =
      convictionLevelOf sr.passes_hard_filters m.deal_criteria
        (assess_conviction l m sr).confidence_score := rfl
  refine ⟨?_, ?_, hlev, ?_⟩
  · intro hp
    rw [hconf, hcs, if_pos hp]
    ring
  · intro hp
    constructor
    · rw [hconf, hcs, if_neg (by simp [hp])]
      ring
    · rw [hlev]
      unfold convictionLevelOf
      rw [if_pos (by simp [hp])]
  · intro p dc f₁ f₂ h
    unfold convictionLevelOf
    cases p with
    | false => simp [levelRank]
    | true =>
      simp only [Bool.not_true]
      split_ifs <;> simp_all [levelRank] <;> linarith

/-- A scoring stub whose hard filters pass. -/
def passScoringStub : ScoringResult :=
  { total_score := 97, match_grade := "A", passes_hard_filters := true }

/-- A scoring stub whose hard filters fail. -/
def failScoringStub : ScoringResult :=
  { total_score := 97, match_grade := "A", passes_hard_filters := false }

/-- Witness for C6 at concrete inputs exercising both filter outcomes. -/
theorem conviction_confidence_blend_witness :
    ((assess_conviction {} {} passScoringStub).confidence_score =
      0.7 * (passScoringStub.total_score / 100) +
        0.3 * (convictionMetWeight {} {} / convictionTotalWeight {} {})) ∧
    ((assess_conviction {} {} failScoringStub).level = ConvictionLevel.none_) := by
  constructor
  · exact (conviction_confidence_blend {} {} passScoringStub).1 rfl
  · exact ((conviction_confidence_blend {} {} failScoringStub).2.1 rfl).2

/-- Well-formed mandate for scoring: configured (truthy) numeric thresholds
are positive, a configured deal-size range is non-degenerate, and the
scoring weights are nonnegative.  These are exactly the conditions under
which the Python scorer is defined (a degenerate range min = max = price
divides by zero) and produces range-bounded output. -/
def ValidMandate (m : Mandate) : Prop :=
  (0 ≤ m.scoring_weights.location_region ∧ 0 ≤ m.scoring_weights.location_postcode ∧
   0 ≤ m.scoring_weights.price_range ∧ 0 ≤ m.scoring_weights.price_psf ∧
   0 ≤ m.scoring_weights.yield_minimum ∧ 0 ≤ m.scoring_weights.yield_target ∧
   0 ≤ m.scoring_weights.property_size ∧ 0 ≤ m.scoring_weights.property_condition ∧
   0 ≤ m.scoring_weights.property_tenure ∧ 0 ≤ m.scoring_weights.risk_profile) ∧
  (∀ x, m.financial.min_deal_size = some x → 0 < x) ∧
  (∀ x, m.financial.max_deal_size = some x → 0 < x) ∧
  (∀ x y, m.financial.min_deal_size = some x → m.financial.max_deal_size = some y → x < y) ∧
  (∀ x, m.financial.min_yield = some x → 0 < x) ∧
  (∀ x, m.financial.target_yield = some x → 0 < x) ∧
  (∀ x, m.financial.max_price_psf = some x → 0 < x)

theorem optTruthy_iff (o : Option ℚ) : optTruthy o = true ↔ ∃ x, o = some x ∧ x ≠ 0 := by
  cases o <;> simp [optTruthy]

theorem region_match_score_bounds (l : Listing) (m : Mandate) :
    0 ≤ region_match_score l m ∧ region_match_score l m ≤ 1 := by
  unfold region_match_score
  dsimp only
  split_ifs <;> norm_num

theorem postcode_match_score_bounds (l : Listing) (m : Mandate) :
    0 ≤ postcode_match_score l m ∧ postcode_match_score l m ≤ 1 := by
  unfold postcode_match_score
  dsimp only
  split_ifs <;> norm_num

theorem price_range_score_bounds (l : Listing) (m : Mandate)
    (hmin : ∀ x, m.financial.min_deal_size = some x → 0 < x)
    (hmax : ∀ x, m.financial.max_deal_size = some x → 0 < x)
    (hboth : ∀ x y, m.financial.min_deal_size = some x →
      m.financial.max_deal_size = some y → x < y) :
    0 ≤ price_range_score l m ∧ price_range_score l m ≤ 1 := by
  unfold price_range_score
  dsimp only
  rcases hmn : m.financial.min_deal_size with _ | mn <;>
    rcases hmx : m.financial.max_deal_size with _ | mx
  · norm_num [optTruthy]
  · have h0x := hmax mx hmx
    simp only [optTruthy, Option.getD_some, decide_eq_true_eq, Bool.false_eq_true,
      false_and, if_false]
    rw [if_pos (ne_of_gt h0x)]
    split_ifs with hc
    · norm_num
    · push_neg at hc
      have hs : 0 ≤ (l.asking_price - mx) / mx :=
        div_nonneg (by linarith) h0x.le
      exact ⟨le_max_left _ _, max_le (by norm_num) (by linarith)⟩
  · have h0n := hmin mn hmn
    simp only [optTruthy, Option.getD_some, decide_eq_true_eq, Bool.false_eq_true,
      and_false, if_false]
    rw [if_pos (ne_of_gt h0n)]
    split_ifs with hc
    · norm_num
    · push_neg at hc
      have hs : 0 ≤ (mn - l.asking_price) / mn :=
        div_nonneg (by linarith) h0n.le
      exact ⟨le_max_left _ _, max_le (by norm_num) (by linarith)⟩
  · have h0n := hmin mn hmn
    have h0x := hmax mx hmx
    have hlt := hboth mn mx hmn hmx
    simp only [optTruthy, Option.getD_some, decide_eq_true_eq]
    rw [if_pos ⟨ne_of_gt h0n, ne_of_gt h0x⟩]
    split_ifs with hin hlo
    · have hd : (0 : ℚ) < mx - mn := by linarith
      have hpos0 : 0 ≤ (l.asking_price - mn) / (mx - mn) :=
        div_nonneg (by linarith [hin.1]) hd.le
      have hpos1 : (l.asking_price - mn) / (mx - mn) ≤ 1 :=
        (div_le_one hd).mpr (by linarith [hin.2])
      have habs : |0.5 - (l.asking_price - mn) / (mx - mn)| ≤ 0.5 := by
        rw [abs_le]
        constructor <;> [linarith; linarith]
      have habs0 : 0 ≤ |0.5 - (l.asking_price - mn) / (mx - mn)| := abs_nonneg _
      constructor <;> nlinarith
    · have hs : 0 ≤ (mn - l.asking_price) / mn :=
        div_nonneg (by linarith) h0n.le
      exact ⟨le_max_left _ _, max_le (by norm_num) (by linarith)⟩
    · push_neg at hin hlo
      have hgt : mx < l.asking_price := lt_of_not_le (fun hh => by
        exact absurd (hin hlo) (not_lt.mpr hh))
      have hs : 0 ≤ (l.asking_price - mx) / mx :=
        div_nonneg (by linarith) h0x.le
      exact ⟨le_max_left _ _, max_le (by norm_num) (by linarith)⟩

theorem price_psf_score_bounds (l : Listing) (m : Mandate)
    (hpsf : ∀ x, m.financial.max_price_psf = some x → 0 < x) :
    0 ≤ price_psf_score l m ∧ price_psf_score l m ≤ 1 := by
  unfold price_psf_score
  dsimp only
  split_ifs with hc hle
  · norm_num
  · obtain ⟨cap, hcap, _⟩ := (optTruthy_iff _).mp hc.1
    have h0 := hpsf cap hcap
    rw [hcap, Option.getD_some] at hle ⊢
    push_neg at hle
    have hs : 0 ≤ (l.financial.price_per_sqft.getD 0 - cap) / cap :=
      div_nonneg (by linarith) h0.le
    exact ⟨le_max_left _ _, max_le (by norm_num) (by linarith)⟩
  · norm_num

theorem yield_minimum_score_bounds (l : Listing) (m : Mandate)
    (hmy : ∀ x, m.financial.min_yield = some x → 0 < x) :
    0 ≤ yield_minimum_score l m ∧ yield_minimum_score l m ≤ 1 := by
  unfold yield_minimum_score
  dsimp only
  rcases hmn : m.financial.min_yield with _ | my
  · norm_num [optTruthy]
  · have h0 := hmy my hmn
    simp only [optTruthy, Option.getD_some, decide_eq_true_eq]
    rw [if_pos (ne_of_gt h0)]
    cases l.gross_yield with
    | none => norm_num
    | some y =>
      dsimp only
      split_ifs with hge
      · norm_num
      · push_neg at hge
        have hs : 0 ≤ (my - y) / my := div_nonneg (by linarith) h0.le
        exact ⟨le_max_left _ _, max_le (by norm_num) (by linarith)⟩

theorem yield_target_score_bounds (l : Listing) (m : Mandate)
    (hty : ∀ x, m.financial.target_yield = some x → 0 < x) :
    0 ≤ yield_target_score l m ∧ yield_target_score l m ≤ 1 := by
  unfold yield_target_score
  dsimp only
  rcases htg : m.financial.target_yield with _ | ty
  · norm_num [optTruthy]
  · have h0 := hty ty htg
    simp only [optTruthy, Option.getD_some, decide_eq_true_eq]
    rw [if_pos (ne_of_gt h0)]
    cases l.gross_yield with
    | none => norm_num
    | some y =>
      dsimp only
      split_ifs with hge
      · have he : 0 ≤ (y - ty) / ty := div_nonneg (by linarith [hge]) h0.le
        exact ⟨le_min (by norm_num) (by linarith), min_le_left _ _⟩
      · push_neg at hge
        have hs : 0 ≤ (ty - y) / ty := div_nonneg (by linarith) h0.le
        exact ⟨le_trans (by norm_num) (le_max_left 0.3 _),
          max_le (by norm_num) (by linarith)⟩

theorem property_size_score_bounds (l : Listing) (m : Mandate) :
    0 ≤ property_size_score l m ∧ property_size_score l m ≤ 1 := by
  unfold property_size_score
  dsimp only
  split_ifs <;> norm_num

theorem property_condition_score_bounds (l : Listing) (m : Mandate) :
    0 ≤ property_condition_score l m ∧ property_condition_score l m ≤ 1 := by
  unfold property_condition_score
  cases l.property_details.condition <;> dsimp only <;>
    first
      | (split_ifs <;> norm_num)
      | norm_num

theorem property_tenure_score_bounds (l : Listing) (m : Mandate) :
    0 ≤ property_tenure_score l m ∧ property_tenure_score l m ≤ 1 := by
  unfold property_tenure_score
  dsimp only
  split_ifs <;> cases l.financial.lease_years_remaining <;> (try dsimp only) <;>
    (try split_ifs) <;> norm_num

theorem risk_profile_score_bounds (l : Listing) (m : Mandate) :
    0 ≤ risk_profile_score l m ∧ risk_profile_score l m ≤ 1 := by
  unfold risk_profile_score
  dsimp only
  split_ifs <;> norm_num

/-- Sum bounds for any factor list whose entries have a [0,1] sub-score, a
nonnegative weight, and weighted_score = score * weight. -/
theorem factors_sum_bounds (fs : List ScoreFactor)
    (h : ∀ f ∈ fs, (0 ≤ f.score ∧ f.score ≤ 1) ∧ 0 ≤ f.weight ∧
      f.weighted_score = f.score * f.weight) :
    0 ≤ (fs.map ScoreFactor.weighted_score).sum ∧
    (fs.map ScoreFactor.weighted_score).sum ≤ (fs.map ScoreFactor.weight).sum ∧
    0 ≤ (fs.map ScoreFactor.weight).sum := by
  induction fs with
  | nil => simp
  | cons a t ih =>
    obtain ⟨⟨hs0, hs1⟩, hw0, hws⟩ := h a (List.mem_cons_self a t)
    obtain ⟨ih1, ih2, ih3⟩ := ih (fun f hf => h f (List.mem_cons_of_mem a hf))
    simp only [List.map_cons, List.sum_cons]
    have h1 : 0 ≤ a.score * a.weight := mul_nonneg hs0 hw0
    have h2 : a.score * a.weight ≤ a.weight := mul_le_of_le_one_left hw0 hs1
    rw [hws]
    exact ⟨by linarith, by linarith, by linarith⟩

/-- Every factor produced by score_listing (no explicit weights) has a [0,1]
sub-score, a nonnegative weight, and weighted_score = score * weight, for a
valid mandate. -/
theorem score_factors_props (l : Listing) (m : Mandate) (hm : ValidMandate m) :
    ∀ f ∈ (score_listing l m []).factors,
      (0 ≤ f.score ∧ f.score ≤ 1) ∧ 0 ≤ f.weight ∧
        f.weighted_score = f.score * f.weight := by
  obtain ⟨⟨w1, w2, w3, w4, w5, w6, w7, w8, w9, w10⟩, hmin, hmax, hboth, hmy, hty, hpsf⟩ := hm
  intro f hf
  have hfac : (score_listing l m []).factors =
      score_location l m m.scoring_weights ++ score_price l m m.scoring_weights ++
      score_yield l m m.scoring_weights ++ score_property l m m.scoring_weights ++
      score_risk l m m.scoring_weights := rfl
  rw [hfac] at hf
  simp only [score_location, score_price, score_yield, score_property, score_risk,
    List.mem_append, List.mem_cons, List.not_mem_nil, or_false] at hf
  simp only [or_assoc] at hf
  rcases hf with hf | hf | hf | hf | hf | hf | hf | hf | hf | hf <;>
    subst hf <;>
      refine ⟨?_, by assumption, rfl⟩
  · exact region_match_score_bounds l m
  · exact postcode_match_score_bounds l m
  · exact price_range_score_bounds l m hmin hmax hboth
  · exact price_psf_score_bounds l m hpsf
  · exact yield_minimum_score_bounds l m hmy
  · exact yield_target_score_bounds l m hty
  · exact property_size_score_bounds l m
  · exact property_condition_score_bounds l m
  · exact property_tenure_score_bounds l m
  · exact risk_profile_score_bounds l m

/-- C2: for every listing and valid mandate the total score lies in
[0, 100]; the stored grade is the grade of the total score; and the letter
grade is a non-decreasing step function of the score with breakpoints at
40 (D), 60 (C), 75 (B) and 90 (A), F below 40. -/
theorem score_range_and_grade_steps (l : Listing) (m : Mandate) (hm : ValidMandate m) :
    (0 ≤ (score_listing l m []).total_score ∧
      (score_listing l m []).total_score ≤ 100) ∧
    (score_listing l m []).match_grade =
      calculate_grade (score_listing l m []).total_score ∧
    (∀ s₁ s₂ : ℚ, s₁ ≤ s₂ →
      gradeRank (calculate_grade s₁) ≤ gradeRank (calculate_grade s₂)) ∧
    (∀ s : ℚ,
      (calculate_grade s = "A" ↔ 90 ≤ s) ∧
      (calculate_grade s = "B" ↔ 75 ≤ s ∧ s < 90) ∧
      (calculate_grade s = "C" ↔ 60 ≤ s ∧ s < 75) ∧
      (calculate_grade s = "D" ↔ 40 ≤ s ∧ s < 60) ∧
      (calculate_grade s = "F" ↔ s < 40)) := by
  have hrank : ∀ s : ℚ, gradeRank (calculate_grade s) =
      if s ≥ 90 then 4 else if s ≥ 75 then 3 else if s ≥ 60 then 2
      else if s ≥ 40 then 1 else 0 := by
    intro s
    unfold calculate_grade
    split_ifs <;> simp [gradeRank]
  refine ⟨?_, rfl, ?_, ?_⟩
  · obtain ⟨h1, h2, h3⟩ := factors_sum_bounds _ (score_factors_props l m hm)
    have htot : (score_listing l m []).total_score =
        (let tws := ((score_listing l m []).factors.map ScoreFactor.weighted_score).sum
         let tw := ((score_listing l m []).factors.map ScoreFactor.weight).sum
         let ns := if tw > 0 then (tws / tw) * 100 else 0
         if (score_listing l m []).passes_hard_filters then ns else ns * 0.3) := rfl
    rw [htot]
    dsimp only
    have hns : 0 ≤ (if ((score_listing l m []).factors.map ScoreFactor.weight).sum > 0 then
          (((score_listing l m []).factors.map ScoreFactor.weighted_score).sum /
            ((score_listing l m []).factors.map ScoreFactor.weight).sum) * 100 else 0) ∧
        (if ((score_listing l m []).factors.map ScoreFactor.weight).sum > 0 then
          (((score_listing l m []).factors.map ScoreFactor.weighted_score).sum /
            ((score_listing l m []).factors.map ScoreFactor.weight).sum) * 100 else 0) ≤ 100 := by
      split_ifs with hpos
      · have hd0 : 0 ≤ (((score_listing l m []).factors.map ScoreFactor.weighted_score).sum /
            ((score_listing l m []).factors.map ScoreFactor.weight).sum) :=
          div_nonneg h1 (le_of_lt hpos)
        have hd1 : (((score_listing l m []).factors.map ScoreFactor.weighted_score).sum /
            ((score_listing l m []).factors.map ScoreFactor.weight).sum) ≤ 1 :=
          (div_le_one hpos).mpr h2
        constructor <;> nlinarith
      · norm_num
    obtain ⟨hn0, hn1⟩ := hns
    split_ifs at hn0 hn1 ⊢ <;> constructor <;> nlinarith
  · intro s₁ s₂ h12
    rw [hrank, hrank]
    split_ifs <;> linarith
  · intro s
    unfold calculate_grade
    split_ifs with h1 h2 h3 h4
    · exact ⟨iff_of_true rfl h1,
        iff_of_false (by decide) (fun hc => by linarith [hc.2]),
        iff_of_false (by decide) (fun hc => by linarith [hc.2]),
        iff_of_false (by decide) (fun hc => by linarith [hc.2]),
        iff_of_false (by decide) (fun hc => by linarith)⟩
    · exact ⟨iff_of_false (by decide) (fun hc => h1 hc),
        iff_of_true rfl ⟨h2, lt_of_not_le h1⟩,
        iff_of_false (by decide) (fun hc => by linarith [hc.2]),
        iff_of_false (by decide) (fun hc => by linarith [hc.2]),
        iff_of_false (by decide) (fun hc => by linarith)⟩
    · exact ⟨iff_of_false (by decide) (fun hc => h1 hc),
        iff_of_false (by decide) (fun hc => h2 hc.1),
        iff_of_true rfl ⟨h3, lt_of_not_le h2⟩,
        iff_of_false (by decide) (fun hc => by linarith [hc.2]),
        iff_of_false (by decide) (fun hc => by linarith)⟩
    · exact ⟨iff_of_false (by decide) (fun hc => h1 hc),
        iff_of_false (by decide) (fun hc => h2 hc.1),
        iff_of_false (by decide) (fun hc => h3 hc.1),
        iff_of_true rfl ⟨h4, lt_of_not_le h3⟩,
        iff_of_false (by decide) (fun hc => by linarith)⟩
    · exact ⟨iff_of_false (by decide) (fun hc => h1 hc),
        iff_of_false (by decide) (fun hc => h2 hc.1),
        iff_of_false (by decide) (fun hc => h3 hc.1),
        iff_of_false (by decide) (fun hc => h4 hc.1),
        iff_of_true rfl (lt_of_not_le h4)⟩

/-- Witness for C2 at the default listing and (valid) default mandate. -/
theorem score_range_and_grade_steps_witness :
    (0 ≤ (score_listing {} {} []).total_score ∧
      (score_listing {} {} []).total_score ≤ 100) ∧
    (score_listing {} {} []).match_grade =
      calculate_grade (score_listing {} {} []).total_score := by
  have hv : ValidMandate {} := by
    refine ⟨by norm_num, ?_, ?_, ?_, ?_, ?_, ?_⟩ <;> intro x <;> intros <;> simp_all
  have h := score_range_and_grade_steps {} {} hv
  exact ⟨h.1, h.2.1⟩

end DealEngine


